import Mathlib

/-!
Verification of the Molise-earthquake panel pipeline (`build.py`, `models.py`,
`diagnostics.py`) against its specification.

Modelling conventions for the shallow embedding:
* a pandas cell that may be missing (NaN) is an `Option`; numeric cells hold
  the value after `pd.to_numeric(..., errors='coerce')`, so a non-coercible
  raw value is already `none`;
* a DataFrame is a `List` of row records; where the pandas row-index labels
  matter (alignment in `assemble_panel`) a row is paired with its label;
* Python exceptions are `Except String`;
* floats are `ℚ` (the programme only ever combines its inputs by field
  arithmetic, comparisons and quantile interpolation); the single
  transcendental step, `np.arcsinh`, is applied on top as `Real.arsinh`.
-/

/-- One raw observation row (worker-year record) with the columns the
analysed functions read: `id_worker`, `year`, `region_res`, `type`,
`wage`, `working_weeks`, and an optional municipality code. -/
structure RawRow where
  id_worker : ℤ
  year : ℤ
  region_res : String
  type : Option ℤ
  wage : Option ℚ
  working_weeks : Option ℚ
  municipality : Option ℤ
deriving DecidableEq

/-- Pandas `col.notna() & (col > 0)`: `NaN > 0` is `False`, so the conjunct
holds exactly when the cell is present with a positive value. -/
def presentPos (x : Option ℚ) : Bool :=
  match x with
  | some v => decide (0 < v)
  | none => false

/-- `build.py` lines 71-74: `emp_prob` is 1 iff the wage is present and
positive or the working-weeks value is present and positive, else 0
(`astype(int)`, hence never missing). -/
def empProb (r : RawRow) : ℤ :=
  if presentPos r.wage || presentPos r.working_weeks then 1 else 0

/-- `build.py` lines 78-79 (weeks column present): annualized earnings
`wage * (weeks / 52) * 12` where a missing weeks cell is filled with 52;
a missing wage propagates as missing. -/
def earningsAnnual (r : RawRow) : Option ℚ :=
  r.wage.map (fun w => w * ((r.working_weeks.getD 52) / 52) * 12)

/-- Insert into an ascending-sorted list (helper for the sorts below). -/
def insertAsc [LinearOrder α] (x : α) : List α → List α
  | [] => [x]
  | y :: ys => if x ≤ y then x :: y :: ys else y :: insertAsc x ys

/-- Ascending insertion sort; pandas sorts the non-missing values before
quantile interpolation, and `sorted(...)` orders the event-time dummies. -/
def sortAsc [LinearOrder α] : List α → List α
  | [] => []
  | x :: xs => insertAsc x (sortAsc xs)

/-- Pandas `Series.quantile(q)` with the default linear interpolation over
the non-missing values: position `q*(n-1)` between the order statistics;
`none` when there are no values. -/
def pandasQuantile (xs : List ℚ) (q : ℚ) : Option ℚ :=
  let s := sortAsc xs
  match s with
  | [] => none
  | _ =>
    let pos : ℚ := q * ((s.length : ℚ) - 1)
    let i : ℕ := (Rat.floor pos).toNat
    let frac : ℚ := pos - (Rat.floor pos : ℚ)
    match s.get? i, s.get? (i + 1) with
    | some a, some b => some (a + frac * (b - a))
    | some a, none => some a
    | none, _ => none

/-- Pandas `Series.clip(lower, upper)`: apply the lower bound, then the
upper; a missing bound (all-NaN quantile input) clips nothing. -/
def clipOpt (lo hi : Option ℚ) (x : ℚ) : ℚ :=
  let x1 := match lo with
    | some l => max l x
    | none => x
  match hi with
  | some h => min h x1
  | none => x1

/-- The non-missing annualized-earnings values of the input (the population
over which `build.py` lines 85-86 take the percentiles). -/
def annualVals (rows : List RawRow) : List ℚ :=
  rows.filterMap earningsAnnual

/-- `build.py` line 85: `earnings_annual.quantile(0.01)`. -/
def earningsLowerBound (rows : List RawRow) : Option ℚ :=
  pandasQuantile (annualVals rows) (1 / 100)

/-- `build.py` line 86: `earnings_annual.quantile(0.99)`. -/
def earningsUpperBound (rows : List RawRow) : Option ℚ :=
  pandasQuantile (annualVals rows) (99 / 100)

/-- `build.py` lines 84-87: the annualized earnings of one row winsorized at
the [p1, p99] percentiles of the whole input's annualized distribution. -/
def winsorizedEarnings (rows : List RawRow) (r : RawRow) : Option ℚ :=
  (earningsAnnual r).map (clipOpt (earningsLowerBound rows) (earningsUpperBound rows))

/-- The outcome columns of `make_outcomes` referenced by the claims
(`earnings_asinh` is `Real.arsinh` of `earnings_winsorized`, kept as the
rational argument here and applied in `earningsAsinh`). -/
structure OutcomeRow where
  emp_prob : ℤ
  earnings_winsorized : Option ℚ
deriving DecidableEq

/-- `make_outcomes` (`build.py` lines 62-115) restricted to the claimed
columns.  `hasWeeksCol` says whether the working-weeks column is present in
the input frame.  Lines 71-74 read `df[working_weeks_col]` unconditionally,
so an absent weeks column raises `KeyError` there, before the
`if working_weeks_col in df.columns` fallback of lines 77-81 is ever
reached: the `wage * 12` branch is dead code. -/
def makeOutcomes (hasWeeksCol : Bool) (rows : List RawRow) : Except String (List OutcomeRow) :=
  if hasWeeksCol then
    Except.ok (rows.map (fun r =>
      { emp_prob := empProb r
        earnings_winsorized := winsorizedEarnings rows r }))
  else
    Except.error "KeyError: working_weeks"

/-- `build.py` line 90: `earnings_asinh = np.arcsinh(earnings_winsorized)`. -/
noncomputable def earningsAsinh (rows : List RawRow) (r : RawRow) : Option ℝ :=
  (winsorizedEarnings rows r).map (fun q => Real.arsinh (q : ℝ))

/-- A row as seen by `make_flags`: person id, year, optional municipality. -/
structure FRow where
  id_worker : ℤ
  year : ℤ
  municipality : Option ℤ
deriving DecidableEq

/-- `build.py` line 144: the years required for the balanced-panel flag,
1997-2001 and 2003-2007 (2002, the earthquake year, is never required). -/
def requiredYears : List ℤ :=
  [1997, 1998, 1999, 2000, 2001, 2003, 2004, 2005, 2006, 2007]

/-- The flag columns produced by `make_flags`. -/
structure Flags where
  is_balanced_97_07 : Bool
  is_stayer_residence : Bool
  is_border_municipality : Bool
deriving DecidableEq

/-- The flags of one row of `make_flags` (`build.py` lines 141-158).
`municipalityCol` says whether a municipality column name was passed and is
present in the frame (the `if municipality_col and municipality_col in
df.columns` test of line 149).  The balanced flag asks whether the required
years are a subset of the worker's observed years (`issubset`, aligned back
to each row of that worker); the stayer flag counts the worker's distinct
non-missing municipalities (`nunique`), defaulting to `true` for every row
when no municipality column is available. -/
def flagsForRow (df : List FRow) (municipalityCol : Bool) (r : FRow) : Flags :=
  { is_balanced_97_07 :=
      requiredYears.all (fun y =>
        df.any (fun s => s.id_worker == r.id_worker && s.year == y))
    is_stayer_residence :=
      if municipalityCol then
        ((df.filter (fun s => s.id_worker == r.id_worker)).filterMap
          (fun s => s.municipality)).dedup.length == 1
      else
        true
    is_border_municipality := false }

/-- `make_flags`: one `Flags` record per input row, in row order. -/
def makeFlags (df : List FRow) (municipalityCol : Bool) : List Flags :=
  df.map (flagsForRow df municipalityCol)

/-- `construct_worker_type` (`build.py` lines 26-34): the fixed lookup from
the raw `type` code; any other or missing code maps to a missing category. -/
def workerTypeMap (t : Option ℤ) : Option String :=
  match t with
  | some 1 => some "private"
  | some 2 => some "public"
  | some 3 => some "self"
  | some 4 => some "non_employed"
  | _ => none

/-- One row of the assembled panel.  `label` is the pandas row-index label
(a fresh `RangeIndex` after the loader's `pd.concat(ignore_index=True)`,
thinned by the filters).  `molise_res0` records the initial assignment of
`build.py` line 195 (`region_res == '12'`); `molise_res` is the column
after the pre-period fix of lines 222-226, where `none` is NaN. -/
structure PanelRow where
  label : ℤ
  id_worker : ℤ
  year : ℤ
  region_res : String
  worker_type : Option String
  molise_res0 : ℤ
  molise_res : Option ℤ
  post : ℤ
  treat : ℤ
  event_time : ℤ
  emp_prob : ℤ
  earnings_winsorized : Option ℚ
  is_balanced_97_07 : Bool
  is_stayer_residence : Bool
  is_border_municipality : Bool
deriving DecidableEq

/-- The molise_res fix of one row (`build.py` line 226).  The series
`pre_residence.reindex(panel['id_worker'])` carries, per row, the first
pre-2002 `molise_res` of that row's worker (NaN when the worker has no
pre-2002 row); it is indexed by the worker ids.  `.fillna(panel['molise_res'])`
aligns the fill values by INDEX LABEL, so a NaN entry at index label `w`
(worker id `w`) is filled from the row of the panel whose row-index label
equals `w` — not from the worker's own row — and stays NaN when no row
label equals `w`. -/
def fixRow (pre panel : List PanelRow) (r : PanelRow) : PanelRow :=
  match (pre.find? (fun s => s.id_worker == r.id_worker)).map PanelRow.molise_res0 with
  | some v => { r with molise_res := some v }
  | none =>
    match (panel.find? (fun s => s.label == r.id_worker)).map PanelRow.molise_res0 with
    | some v => { r with molise_res := some v }
    | none => { r with molise_res := none }

/-- `build.py` lines 222-226: re-resolve `molise_res` from the pre-period
rows; skipped entirely when there are no pre-period rows. -/
def molisResFix (panel : List PanelRow) : List PanelRow :=
  if (panel.filter (fun r => decide (r.year < 2002))).isEmpty then panel
  else panel.map (fixRow (panel.filter (fun r => decide (r.year < 2002))) panel)

/-- The row filters of `assemble_panel`, in source order: drop
non-employed workers (`build.py` line 191), keep years 1997-2007 without
2002 (line 207), keep the Molise and Basilicata region codes (line 210). -/
def panelFiltered (df : List (ℤ × RawRow)) : List (ℤ × RawRow) :=
  ((df.filter (fun p => decide (workerTypeMap p.2.type ≠ some "non_employed"))).filter
      (fun p => decide (1997 ≤ p.2.year ∧ p.2.year ≤ 2007 ∧ p.2.year ≠ 2002))).filter
    (fun p => decide (p.2.region_res = "12" ∨ p.2.region_res = "2"))

/-- One assembled panel row before the molise_res fix: the treatment
columns of `build.py` lines 195-204, the outcomes of line 213 and the
flags of line 218 (`make_flags(panel)` — no municipality column name is
passed, so `municipalityCol` is `false`). -/
def mkPanelRow (rows : List RawRow) (flagRows : List FRow) (p : ℤ × RawRow) : PanelRow :=
  let r := p.2
  let m0 : ℤ := if r.region_res = "12" then 1 else 0
  let postv : ℤ := if 2003 ≤ r.year then 1 else 0
  let fl := flagsForRow flagRows false (FRow.mk r.id_worker r.year r.municipality)
  { label := p.1
    id_worker := r.id_worker
    year := r.year
    region_res := r.region_res
    worker_type := workerTypeMap r.type
    molise_res0 := m0
    molise_res := some m0
    post := postv
    treat := m0 * postv
    event_time := r.year - 2002
    emp_prob := empProb r
    earnings_winsorized := winsorizedEarnings rows r
    is_balanced_97_07 := fl.is_balanced_97_07
    is_stayer_residence := fl.is_stayer_residence
    is_border_municipality := fl.is_border_municipality }

/-- `assemble_panel` (`build.py` lines 161-228) restricted to the claimed
columns (`age`, `wage_asinh` and the contract columns are attached the same
way and referenced by no claim).  The input pairs each raw row with its
row-index label. -/
def assemblePanel (df : List (ℤ × RawRow)) : List PanelRow :=
  let s3 := panelFiltered df
  let rows := s3.map (fun p => p.2)
  let flagRows := rows.map (fun r => FRow.mk r.id_worker r.year r.municipality)
  molisResFix (s3.map (mkPanelRow rows flagRows))

/-- One input row to `event_study` (`models.py` lines 126-256): the chosen
outcome column's value, `molise_res`, `event_time` and `worker_type`; the
first three may be missing and are dropped by the `dropna` step. -/
structure ESRow where
  id_worker : ℤ
  year : ℤ
  outcome : Option ℚ
  molise_res : Option ℚ
  event_time : Option ℤ
  worker_type : Option String
deriving DecidableEq

/-- One prepared observation handed to `PanelOLS`: entity and time ids, the
outcome `y`, and the event-time interaction dummies
`1{event_time = k} * molise_res` cast with `astype(int)` (truncation; the
values here are products of 0/1 indicators).  The constant column added by
`sm.add_constant` is implicit. -/
structure PreparedRow where
  id_worker : ℤ
  year : ℤ
  y : ℚ
  dummies : List (ℤ × ℤ)
deriving DecidableEq

/-- The external `PanelOLS(...).fit(...)` step, abstracted: it receives the
prepared observations and either raises or yields the fitted parameters,
read back as a partial map from the event time `k` to the `(beta, se)` of
the regressor named `event_k` (`none` models a name absent from
`result.params.index`). -/
def FitFn : Type :=
  List PreparedRow → Except String (ℤ → Option (ℚ × ℚ))

/-- `models.py` lines 150-154: drop rows with a missing outcome, treatment
or event time, then keep `event_time ∈ [-5, 5] \ {0}`. -/
def esFiltered (df : List ESRow) : List ESRow :=
  (df.filter (fun r => r.outcome.isSome && r.molise_res.isSome && r.event_time.isSome)).filter
    (fun r =>
      match r.event_time with
      | some k => decide (-5 ≤ k ∧ k ≤ 5 ∧ k ≠ 0)
      | none => false)

/-- `models.py` line 157: the sorted distinct event times of the filtered
data, excluding the reference period -1. -/
def eventTimesOf (data : List ESRow) : List ℤ :=
  sortAsc (((data.filterMap ESRow.event_time).dedup).filter (fun k => k != -1))

/-- Build the prepared observations: `models.py` lines 169-179 / 214-224
(outcome column, one `event_k` dummy per k). -/
def prepare (data : List ESRow) (ks : List ℤ) : List PreparedRow :=
  data.map (fun r =>
    { id_worker := r.id_worker
      year := r.year
      y := r.outcome.getD 0
      dummies := ks.map (fun k =>
        (k, Rat.floor ((if r.event_time = some k then (1 : ℚ) else 0) * r.molise_res.getD 0))) })

/-- One row of the event-study result table. -/
structure EventResultRow where
  event_time : ℤ
  worker_type : Option String
  beta : ℚ
  se : ℚ
  ci_low : ℚ
  ci_high : ℚ
deriving DecidableEq

/-- The synthesized reference-period row appended for event_time -1
(`models.py` lines 203-210 and 247-253): beta, se and both confidence
bounds exactly 0. -/
def refRow (wt : Option String) : EventResultRow :=
  { event_time := -1, worker_type := wt, beta := 0, se := 0, ci_low := 0, ci_high := 0 }

/-- Coefficient extraction (`models.py` lines 186-200 / 231-244): one result
row per event time whose `event_k` name is among the fitted parameters,
with the 95% normal-approximation band `beta ± 1.96 * se`. -/
def extract (ks : List ℤ) (wt : Option String) (params : ℤ → Option (ℚ × ℚ)) :
    List EventResultRow :=
  ks.filterMap (fun k =>
    (params k).map (fun bs =>
      { event_time := k
        worker_type := wt
        beta := bs.1
        se := bs.2
        ci_low := bs.1 - 196 / 100 * bs.2
        ci_high := bs.1 + 196 / 100 * bs.2 }))

/-- The `by_type` loop of `event_study` (`models.py` lines 161-210): for
each worker type in order, skip the type when its subset is empty
(`if len(data_type) == 0: continue`), otherwise fit and append that type's
coefficient rows followed by its own reference-period row. -/
def runTypes (fit : FitFn) (data : List ESRow) (ks : List ℤ) :
    List String → Except String (List EventResultRow)
  | [] => Except.ok []
  | wt :: rest =>
    let sub := data.filter (fun r => r.worker_type == some wt)
    if sub.isEmpty then
      runTypes fit data ks rest
    else
      match fit (prepare sub ks) with
      | Except.error e => Except.error e
      | Except.ok params =>
        match runTypes fit data ks rest with
        | Except.error e => Except.error e
        | Except.ok tail =>
          Except.ok ((extract ks (some wt) params ++ [refRow (some wt)]) ++ tail)

/-- `event_study` (`models.py` lines 126-256): filter, build the dummy set,
then either the pooled regression (lines 211-253, no empty-sample guard
before `PanelOLS`) or one regression per worker type. -/
def eventStudy (fit : FitFn) (byType : Bool) (df : List ESRow) :
    Except String (List EventResultRow) :=
  let data := esFiltered df
  let ks := eventTimesOf data
  if byType then
    runTypes fit data ks ["public", "private", "self"]
  else
    match fit (prepare data ks) with
    | Except.error e => Except.error e
    | Except.ok params => Except.ok (extract ks none params ++ [refRow none])

/-- `pretrend_test` (`diagnostics.py` lines 10-39) on an event-study result
table, with the external `scipy.stats.chi2.cdf` abstracted as `chi2cdf`
(statistic, degrees of freedom).  `none` models the `{'test_stat': nan,
'p_value': nan}` dictionary returned when there is no pre-period row;
otherwise the result is the Wald statistic `(Σβ)² / Σ(se²)` paired with
`1 - chi2cdf(stat, number of pre-period rows)`. -/
def pretrendTest (chi2cdf : ℚ → ℕ → ℚ) (eventDf : List EventResultRow) : Option (ℚ × ℚ) :=
  let pre := eventDf.filter (fun r => decide (r.event_time < 0))
  if pre.isEmpty then
    none
  else
    let stat := (pre.map EventResultRow.beta).sum ^ 2 / (pre.map (fun r => r.se ^ 2)).sum
    some (stat, 1 - chi2cdf stat pre.length)

/-- `presentPos` holds exactly when the cell carries a positive value. -/
lemma presentPos_iff (x : Option ℚ) : presentPos x = true ↔ ∃ w, x = some w ∧ 0 < w := by
  cases x <;> simp [presentPos]

/-- `emp_prob` only takes the values 0 and 1. -/
lemma empProb_cases (r : RawRow) : empProb r = 0 ∨ empProb r = 1 := by
  unfold empProb
  split
  · exact Or.inr rfl
  · exact Or.inl rfl

/-- `emp_prob` is 1 exactly on the claimed condition. -/
lemma empProb_eq_one_iff (r : RawRow) :
    empProb r = 1 ↔
      ((∃ w, r.wage = some w ∧ 0 < w) ∨ (∃ w, r.working_weeks = some w ∧ 0 < w)) := by
  unfold empProb
  constructor
  · intro h
    by_cases hc : (presentPos r.wage || presentPos r.working_weeks) = true
    · rcases (Bool.or_eq_true _ _).mp hc with h' | h'
      · exact Or.inl ((presentPos_iff _).mp h')
      · exact Or.inr ((presentPos_iff _).mp h')
    · rw [if_neg hc] at h
      exact absurd h (by decide)
  · intro h
    have hc : (presentPos r.wage || presentPos r.working_weeks) = true := by
      rcases h with h | h
      · exact (Bool.or_eq_true _ _).mpr (Or.inl ((presentPos_iff _).mpr h))
      · exact (Bool.or_eq_true _ _).mpr (Or.inr ((presentPos_iff _).mpr h))
    rw [if_pos hc]

/-- Clipping to the same (optional) bounds is monotone. -/
lemma clipOpt_mono (lo hi : Option ℚ) {a b : ℚ} (h : a ≤ b) :
    clipOpt lo hi a ≤ clipOpt lo hi b := by
  unfold clipOpt
  cases lo <;> cases hi
  · exact h
  · exact min_le_min le_rfl h
  · exact max_le_max le_rfl h
  · exact min_le_min le_rfl (max_le_max le_rfl h)

/-- The molise_res fix only rewrites the `molise_res` column; every other
column of the row is unchanged. -/
lemma fixRow_preserves (pre panel : List PanelRow) (r : PanelRow) :
    (fixRow pre panel r).worker_type = r.worker_type ∧
      (fixRow pre panel r).year = r.year ∧
      (fixRow pre panel r).region_res = r.region_res ∧
      (fixRow pre panel r).is_stayer_residence = r.is_stayer_residence := by
  unfold fixRow
  split
  · exact ⟨rfl, rfl, rfl, rfl⟩
  · split
    · exact ⟨rfl, rfl, rfl, rfl⟩
    · exact ⟨rfl, rfl, rfl, rfl⟩

/-- Every row of the fixed panel is a row of the unfixed panel with, at
most, its `molise_res` column rewritten. -/
lemma mem_molisResFix (panel : List PanelRow) (r : PanelRow) (h : r ∈ molisResFix panel) :
    ∃ r0 ∈ panel,
      r.worker_type = r0.worker_type ∧ r.year = r0.year ∧
        r.region_res = r0.region_res ∧ r.is_stayer_residence = r0.is_stayer_residence := by
  unfold molisResFix at h
  split at h
  · exact ⟨r, h, rfl, rfl, rfl, rfl⟩
  · obtain ⟨r0, hr0, hfix⟩ := List.mem_map.mp h
    refine ⟨r0, hr0, ?_⟩
    rw [← hfix]
    exact fixRow_preserves _ _ r0

/-- Unpacking the three `assemble_panel` row filters. -/
lemma mem_panelFiltered {df : List (ℤ × RawRow)} {p : ℤ × RawRow} (h : p ∈ panelFiltered df) :
    p ∈ df ∧ workerTypeMap p.2.type ≠ some "non_employed" ∧
      (1997 ≤ p.2.year ∧ p.2.year ≤ 2007 ∧ p.2.year ≠ 2002) ∧
      (p.2.region_res = "12" ∨ p.2.region_res = "2") := by
  simp only [panelFiltered, List.mem_filter, decide_eq_true_eq] at h
  tauto

/-- Membership in an insertion step. -/
lemma mem_insertAsc [LinearOrder α] (x a : α) (l : List α) :
    a ∈ insertAsc x l ↔ a = x ∨ a ∈ l := by
  induction l with
  | nil => simp [insertAsc]
  | cons y ys ih =>
    unfold insertAsc
    split
    · simp
    · simp only [List.mem_cons, ih]
      tauto

/-- Sorting preserves membership. -/
lemma mem_sortAsc [LinearOrder α] (a : α) (xs : List α) : a ∈ sortAsc xs ↔ a ∈ xs := by
  induction xs with
  | nil => simp [sortAsc]
  | cons y ys ih =>
    unfold sortAsc
    rw [mem_insertAsc, ih]
    simp

/-- The reference period -1 is excluded from the regressor event times. -/
lemma neg_one_not_mem_eventTimesOf (data : List ESRow) : (-1 : ℤ) ∉ eventTimesOf data := by
  unfold eventTimesOf
  rw [mem_sortAsc]
  simp [List.mem_filter]

/-- In the `by_type` loop, every worker type whose subset is non-empty and
whose fit succeeded contributes its own synthesized reference-period row. -/
lemma runTypes_ref (fit : FitFn) (data : List ESRow) (ks : List ℤ) :
    ∀ (types : List String) (res : List EventResultRow),
      runTypes fit data ks types = Except.ok res →
      ∀ wt ∈ types,
        (data.filter (fun r => r.worker_type == some wt)).isEmpty = false →
        refRow (some wt) ∈ res := by
  intro types
  induction types with
  | nil =>
    intro res _ wt hwt
    simp at hwt
  | cons t rest ih =>
    intro res h wt hwt hne
    unfold runTypes at h
    by_cases hsub : (data.filter (fun r => r.worker_type == some t)).isEmpty
    · rw [if_pos hsub] at h
      rcases List.mem_cons.mp hwt with rfl | hwt'
      · rw [hsub] at hne
        exact absurd hne (by simp)
      · exact ih res h wt hwt' hne
    · rw [if_neg hsub] at h
      cases hf : fit (prepare (data.filter (fun r => r.worker_type == some t)) ks) with
      | error e =>
        rw [hf] at h
        exact absurd h (by simp)
      | ok params =>
        rw [hf] at h
        cases ht : runTypes fit data ks rest with
        | error e =>
          rw [ht] at h
          exact absurd h (by simp)
        | ok tail =>
          rw [ht] at h
          have hres : (extract ks (some t) params ++ [refRow (some t)]) ++ tail = res :=
            Except.ok.inj h
          rcases List.mem_cons.mp hwt with rfl | hwt'
          · rw [← hres]
            exact List.mem_append_left _ (List.mem_append_right _ (by simp))
          · rw [← hres]
            exact List.mem_append_right _ (ih tail ht wt hwt' hne)

/-- C6: on every successful `make_outcomes` call, each row's `emp_prob` is
0 or 1 (never missing), and it is 1 exactly when the row's wage is present
and positive or its working-weeks value is present and positive. -/
theorem emp_prob_zero_one (rows : List RawRow) (out : List OutcomeRow)
    (h : makeOutcomes true rows = Except.ok out)
    (i : ℕ) (hr : i < rows.length) (ho : i < out.length) :
    ((out.get ⟨i, ho⟩).emp_prob = 0 ∨ (out.get ⟨i, ho⟩).emp_prob = 1) ∧
      ((out.get ⟨i, ho⟩).emp_prob = 1 ↔
        ((∃ w, (rows.get ⟨i, hr⟩).wage = some w ∧ 0 < w) ∨
          (∃ w, (rows.get ⟨i, hr⟩).working_weeks = some w ∧ 0 < w))) := by
  have hout : out = rows.map (fun r =>
      ({ emp_prob := empProb r, earnings_winsorized := winsorizedEarnings rows r } : OutcomeRow)) := by
    unfold makeOutcomes at h
    rw [if_pos rfl] at h
    exact (Except.ok.inj h).symm
  subst hout
  simp only [List.get_eq_getElem, List.getElem_map]
  exact ⟨empProb_cases _, empProb_eq_one_iff _⟩

/-- Input rows for the C6 witness: a worker-year with a positive wage and
one with neither wage nor weeks. -/
def c6rows : List RawRow :=
  [⟨1, 1997, "12", some 1, some 5, none, none⟩, ⟨2, 1997, "2", some 1, none, none, none⟩]

/-- The outcome table `make_outcomes` produces on `c6rows`. -/
def c6out : List OutcomeRow :=
  c6rows.map (fun r =>
    { emp_prob := empProb r, earnings_winsorized := winsorizedEarnings c6rows r })

/-- Witness for C6 at the first row of `c6rows`. -/
theorem emp_prob_zero_one_witness :
    ((c6out.get ⟨0, by decide⟩).emp_prob = 0 ∨ (c6out.get ⟨0, by decide⟩).emp_prob = 1) ∧
      ((c6out.get ⟨0, by decide⟩).emp_prob = 1 ↔
        ((∃ w, (c6rows.get ⟨0, by decide⟩).wage = some w ∧ 0 < w) ∨
          (∃ w, (c6rows.get ⟨0, by decide⟩).working_weeks = some w ∧ 0 < w))) :=
  emp_prob_zero_one c6rows c6out rfl 0 (by decide) (by decide)

/-- C7: in every `make_flags` output, a row's `is_balanced_97_07` is true
exactly when its worker's observed years include all of 1997-2001 and
2003-2007; the year 2002 is never required. -/
theorem balanced_flag_iff_superset (df : List FRow) (mcol : Bool) (i : ℕ)
    (hi : i < df.length) (ho : i < (makeFlags df mcol).length) :
    (((makeFlags df mcol).get ⟨i, ho⟩).is_balanced_97_07 = true ↔
      ∀ y ∈ requiredYears, ∃ s ∈ df, s.id_worker = (df.get ⟨i, hi⟩).id_worker ∧ s.year = y) ∧
      (2002 : ℤ) ∉ requiredYears := by
  constructor
  · simp only [makeFlags, List.get_eq_getElem, List.getElem_map]
    unfold flagsForRow
    simp only [List.all_eq_true, List.any_eq_true, Bool.and_eq_true, beq_iff_eq]
  · decide

/-- Input rows for the C7 witness: worker 1 observed in every required
year, worker 2 in a single year. -/
def c7df : List FRow :=
  (requiredYears.map (fun y => FRow.mk 1 y none)) ++ [FRow.mk 2 1997 none]

/-- Witness for C7 at the first row of `c7df` (worker 1, balanced). -/
theorem balanced_flag_iff_superset_witness :
    (((makeFlags c7df false).get ⟨0, by decide⟩).is_balanced_97_07 = true ↔
      ∀ y ∈ requiredYears, ∃ s ∈ c7df, s.id_worker = (c7df.get ⟨0, by decide⟩).id_worker ∧ s.year = y) ∧
      (2002 : ℤ) ∉ requiredYears :=
  balanced_flag_iff_superset c7df false 0 (by decide) (by decide)

/-- Input row for the C3 evaluation: wage 10 and 26 working weeks. -/
def c3rows : List RawRow := [⟨1, 1997, "12", some 1, some 10, some 26, none⟩]

/-- C3: with the working-weeks column present, annualized earnings follow
`wage * (weeks / 52) * 12` (here `10 * (26/52) * 12 = 60`); with the
column absent, `make_outcomes` raises `KeyError` while reading
`df[working_weeks_col]` for `emp_prob`, so the claimed `wage * 12`
fallback is never reached. -/
theorem make_outcomes_weeks_column_eval :
    makeOutcomes false c3rows = Except.error "KeyError: working_weeks" ∧
      makeOutcomes true c3rows =
        Except.ok [{ emp_prob := 1, earnings_winsorized := some 60 }] := by
  refine ⟨rfl, ?_⟩
  norm_num [makeOutcomes, winsorizedEarnings, earningsLowerBound, earningsUpperBound,
    annualVals, earningsAnnual, c3rows, List.filterMap, pandasQuantile, sortAsc, insertAsc,
    clipOpt, Rat.floor, empProb, presentPos]

/-- Input for the C1 evaluation: worker 7 observed pre-period in the
treatment region (row label 0), worker 9 observed post-period only in the
control region (row label 1). -/
def c1df : List (ℤ × RawRow) :=
  [(0, ⟨7, 1998, "12", some 1, some 1, some 52, none⟩),
   (1, ⟨9, 2003, "2", some 1, some 1, some 52, none⟩)]

/-- C1: after the pre-period fix, worker 7 (with a pre-2002 row) keeps its
first pre-period value 1, but worker 9 (no pre-2002 row) does NOT keep its
originally computed value 0: the index-label alignment of
`fillna(panel['molise_res'])` finds no panel row whose label equals the
worker id 9, so `molise_res` becomes missing (NaN). -/
theorem assemble_panel_no_preperiod_molise_missing :
    ((assemblePanel c1df).map (fun r => (r.id_worker, r.molise_res0, r.molise_res))) =
      [(7, 1, some 1), (9, 0, none)] := by decide

/-- C5: every row of the assembled panel has a worker type other than
non_employed, a year in 1997-2007 without 2002, and a region code in
{'12', '2'}. -/
theorem panel_row_invariants (df : List (ℤ × RawRow)) (r : PanelRow)
    (hr : r ∈ assemblePanel df) :
    r.worker_type ≠ some "non_employed" ∧
      (1997 ≤ r.year ∧ r.year ≤ 2007 ∧ r.year ≠ 2002) ∧
      (r.region_res = "12" ∨ r.region_res = "2") := by
  simp only [assemblePanel] at hr
  obtain ⟨r0, hr0, hwt, hyear, hregion, _⟩ := mem_molisResFix _ _ hr
  obtain ⟨p, hp, hmk⟩ := List.mem_map.mp hr0
  obtain ⟨_, htype, hyr, hreg⟩ := mem_panelFiltered hp
  refine ⟨?_, ?_, ?_⟩
  · rw [hwt, ← hmk]
    exact htype
  · rw [hyear, ← hmk]
    exact hyr
  · rw [hregion, ← hmk]
    exact hreg

/-- Input for the C5 witness: one public worker in the treatment region. -/
def c5df : List (ℤ × RawRow) := [(0, ⟨3, 1999, "12", some 2, some 1, some 52, none⟩)]

/-- Witness for C5 at the first panel row built from `c5df`. -/
theorem panel_row_invariants_witness :
    ((assemblePanel c5df).get ⟨0, by decide⟩).worker_type ≠ some "non_employed" ∧
      (1997 ≤ ((assemblePanel c5df).get ⟨0, by decide⟩).year ∧
        ((assemblePanel c5df).get ⟨0, by decide⟩).year ≤ 2007 ∧
        ((assemblePanel c5df).get ⟨0, by decide⟩).year ≠ 2002) ∧
      (((assemblePanel c5df).get ⟨0, by decide⟩).region_res = "12" ∨
        ((assemblePanel c5df).get ⟨0, by decide⟩).region_res = "2") :=
  panel_row_invariants c5df _ (List.get_mem _ _ _)

/-- C10: `assemble_panel` calls `make_flags` without a municipality column
name, so `is_stayer_residence` is vacuously true on every row of every
assembled panel, whatever municipality data the input carries. -/
theorem stayer_flag_always_true (df : List (ℤ × RawRow)) (r : PanelRow)
    (hr : r ∈ assemblePanel df) : r.is_stayer_residence = true := by
  simp only [assemblePanel] at hr
  obtain ⟨r0, hr0, _, _, _, hst⟩ := mem_molisResFix _ _ hr
  obtain ⟨p, hp, hmk⟩ := List.mem_map.mp hr0
  rw [hst, ← hmk]
  rfl

/-- Input for the C10 witness: one worker whose municipality changes, so a
computed stayer flag would be false. -/
def c10df : List (ℤ × RawRow) :=
  [(0, ⟨4, 1999, "12", some 1, some 1, some 52, some 101⟩),
   (1, ⟨4, 2003, "12", some 1, some 1, some 52, some 202⟩)]

/-- Witness for C10: the mover of `c10df` is still flagged a stayer. -/
theorem stayer_flag_always_true_witness :
    ((assemblePanel c10df).get ⟨0, by decide⟩).is_stayer_residence = true :=
  stayer_flag_always_true c10df _ (List.get_mem _ _ _)

/-- Modelled from the spec: the `PanelOLS(...).fit(...)` call of
`models.py` is the external `linearmodels` estimator, whose code is not
part of this repository.  On an empty estimation sample it raises (zero
observations leave a rank-deficient regressor matrix), which is exactly
the failure mode the spec's "must return a well-defined empty/NaN result,
not raise" sentence guards against; on a non-empty sample this stub
succeeds with no `event_k` name in its parameter table. -/
def c2fit : FitFn := fun prep =>
  if prep.isEmpty then Except.error "ValueError: empty estimation sample"
  else Except.ok (fun _ => none)

/-- Input for the C2 evaluation: its single row has `event_time` 0, so the
event-time filter leaves an empty estimation sample. -/
def c2df : List ESRow := [⟨1, 2002, some 1, some 1, some 0, some "private"⟩]

/-- C2: on input that is empty after the dropna/event-time filters, the
`by_type` branch skips every worker type and returns an empty result
table, but the pooled branch hands the empty sample straight to
`PanelOLS` and the exception propagates out of `event_study`. -/
theorem event_study_empty_input_eval :
    eventStudy c2fit false c2df = Except.error "ValueError: empty estimation sample" ∧
      eventStudy c2fit true c2df = Except.ok [] :=
  ⟨rfl, rfl⟩

/-- C4: whenever `event_study` returns a result table, no regressor was
built for event_time -1 (it is excluded from the dummy set), and each
regression actually run — the pooled one, or each worker type with a
non-empty subsample — contributed a synthesized reference-period row with
beta, se and both confidence bounds exactly 0. -/
theorem event_study_ref_period (fit : FitFn) (byType : Bool) (df : List ESRow)
    (res : List EventResultRow) (h : eventStudy fit byType df = Except.ok res) :
    ((-1 : ℤ) ∉ eventTimesOf (esFiltered df)) ∧
      (byType = false → refRow none ∈ res) ∧
      (byType = true → ∀ wt ∈ (["public", "private", "self"] : List String),
        ((esFiltered df).filter (fun r => r.worker_type == some wt)).isEmpty = false →
        refRow (some wt) ∈ res) := by
  refine ⟨neg_one_not_mem_eventTimesOf _, ?_, ?_⟩
  · rintro rfl
    have h' : (match fit (prepare (esFiltered df) (eventTimesOf (esFiltered df))) with
        | Except.error e => Except.error e
        | Except.ok params =>
          Except.ok (extract (eventTimesOf (esFiltered df)) none params ++ [refRow none])) =
        Except.ok res := h
    cases hf : fit (prepare (esFiltered df) (eventTimesOf (esFiltered df))) with
    | error e =>
      rw [hf] at h'
      exact absurd h' (by simp)
    | ok params =>
      rw [hf] at h'
      rw [← Except.ok.inj h']
      exact List.mem_append_right _ (by simp)
  · rintro rfl
    have h' : runTypes fit (esFiltered df) (eventTimesOf (esFiltered df))
        ["public", "private", "self"] = Except.ok res := h
    exact runTypes_ref _ _ _ _ _ h'

/-- A fit stub for the C4 witness: always succeeds, exposing no `event_k`
parameter names. -/
def c4fit : FitFn := fun _ => Except.ok (fun _ => none)

/-- Input for the C4 witness: one usable pre-period row. -/
def c4df : List ESRow := [⟨1, 1999, some 1, some 1, some (-3), some "private"⟩]

/-- Witness for C4 on the pooled branch over `c4df`. -/
theorem event_study_ref_period_witness :
    ((-1 : ℤ) ∉ eventTimesOf (esFiltered c4df)) ∧
      (false = false → refRow none ∈ [refRow none]) ∧
      (false = true → ∀ wt ∈ (["public", "private", "self"] : List String),
        ((esFiltered c4df).filter (fun r => r.worker_type == some wt)).isEmpty = false →
        refRow (some wt) ∈ [refRow none]) :=
  event_study_ref_period c4fit false c4df [refRow none] rfl

/-- C8: `pretrend_test` restricts the result table to event_time < 0; with
no pre-period row it returns the NaN dictionary (`none` here), and
otherwise its Wald statistic is `(Σβ)² / Σ(se²)` with the chi-square
p-value `1 - chi2.cdf(stat, df)` at degrees of freedom equal to the number
of pre-period rows. -/
theorem pretrend_wald_formula (chi2cdf : ℚ → ℕ → ℚ) (eventDf pre : List EventResultRow)
    (hpre : pre = eventDf.filter (fun r => decide (r.event_time < 0))) :
    (pre = [] → pretrendTest chi2cdf eventDf = none) ∧
      (pre ≠ [] →
        pretrendTest chi2cdf eventDf =
          some ((pre.map EventResultRow.beta).sum ^ 2 / (pre.map (fun r => r.se ^ 2)).sum,
            1 - chi2cdf
              ((pre.map EventResultRow.beta).sum ^ 2 / (pre.map (fun r => r.se ^ 2)).sum)
              pre.length)) := by
  subst hpre
  constructor
  · intro h
    simp only [pretrendTest]
    rw [h]
    rfl
  · intro h
    simp only [pretrendTest]
    rw [if_neg (fun hc => h (List.isEmpty_iff.mp hc))]

/-- A chi-square cdf stub for the C8 witness. -/
def c8chi : ℚ → ℕ → ℚ := fun _ _ => 0

/-- Input for the C8 witness: one pre-period row with beta 2 and se 1. -/
def c8df : List EventResultRow := [⟨-2, none, 2, 1, 0, 0⟩]

/-- Witness for C8: on `c8df` the Wald statistic is `2² / 1² = 4` and the
p-value is `1 - 0 = 1`. -/
theorem pretrend_wald_formula_witness : pretrendTest c8chi c8df = some (4, 1) := by
  refine ((pretrend_wald_formula c8chi c8df
    (c8df.filter (fun r => decide (r.event_time < 0))) rfl).2 (by decide)).trans ?_
  norm_num [c8df, c8chi, List.filter]

/-- C9: `earnings_asinh` is `asinh` of the row's annualized earnings
clipped to the [p1, p99] percentiles of the same input's annualized
distribution, and for any two rows of the input the transform weakly
preserves the order of their annualized earnings. -/
theorem earnings_asinh_monotone (rows : List RawRow) (r s : RawRow)
    (_hr : r ∈ rows) (_hs : s ∈ rows) (a b : ℚ)
    (ha : earningsAnnual r = some a) (hb : earningsAnnual s = some b) (hab : a ≤ b) :
    earningsAsinh rows r =
        some (Real.arsinh ((clipOpt (earningsLowerBound rows) (earningsUpperBound rows) a : ℚ) : ℝ)) ∧
      earningsAsinh rows s =
        some (Real.arsinh ((clipOpt (earningsLowerBound rows) (earningsUpperBound rows) b : ℚ) : ℝ)) ∧
      Real.arsinh ((clipOpt (earningsLowerBound rows) (earningsUpperBound rows) a : ℚ) : ℝ) ≤
        Real.arsinh ((clipOpt (earningsLowerBound rows) (earningsUpperBound rows) b : ℚ) : ℝ) := by
  refine ⟨?_, ?_, ?_⟩
  · unfold earningsAsinh winsorizedEarnings
    rw [ha]
    rfl
  · unfold earningsAsinh winsorizedEarnings
    rw [hb]
    rfl
  · exact Real.arsinh_le_arsinh.mpr (Rat.cast_le.mpr (clipOpt_mono _ _ hab))

/-- First input row for the C9 witness (annualized earnings 12). -/
def c9r1 : RawRow := ⟨1, 1997, "12", some 1, some 1, some 52, none⟩

/-- Second input row for the C9 witness (annualized earnings 24). -/
def c9r2 : RawRow := ⟨2, 1997, "12", some 1, some 2, some 52, none⟩

/-- The two-row input for the C9 witness. -/
def c9rows : List RawRow := [c9r1, c9r2]

/-- Witness for C9 on `c9rows`. -/
theorem earnings_asinh_monotone_witness :
    earningsAsinh c9rows c9r1 =
        some (Real.arsinh ((clipOpt (earningsLowerBound c9rows) (earningsUpperBound c9rows) 12 : ℚ) : ℝ)) ∧
      earningsAsinh c9rows c9r2 =
        some (Real.arsinh ((clipOpt (earningsLowerBound c9rows) (earningsUpperBound c9rows) 24 : ℚ) : ℝ)) ∧
      Real.arsinh ((clipOpt (earningsLowerBound c9rows) (earningsUpperBound c9rows) 12 : ℚ) : ℝ) ≤
        Real.arsinh ((clipOpt (earningsLowerBound c9rows) (earningsUpperBound c9rows) 24 : ℚ) : ℝ) :=
  earnings_asinh_monotone c9rows c9r1 c9r2 (by simp [c9rows]) (by simp [c9rows]) 12 24
    (by norm_num [earningsAnnual, c9r1]) (by norm_num [earningsAnnual, c9r2]) (by norm_num)
